import Mathlib

/-!
Shallow embedding of the CMS server in `src/server.js`: session guard,
device pairing flow (generate / confirm), profile, content and playlist
handlers, with the external Record Store modelled as explicit table state
and the external Directory Service as function parameters.  Store failures
are injected through `Option String` error parameters (the provider's
error message when the call fails).
-/

/-- JS `a || b` on an optional string field: an absent field (`undefined`)
and the empty string are both falsy and fall through to the default. -/
def jsOrOpt (a : Option String) (b : String) : String :=
  match a with
  | some s => if s = "" then b else s
  | none => b

/-- Lowercase hexadecimal digit for `n < 16`, as produced by Node's
`Buffer.toString('hex')`. -/
def hexDigit (n : Nat) : Char :=
  if n < 10 then Char.ofNat (48 + n) else Char.ofNat (87 + n)

/-- A single byte rendered as two lowercase hex digits. -/
def byteToHex (b : Nat) : List Char :=
  [hexDigit (b / 16), hexDigit (b % 16)]

/-- Model of `crypto.randomBytes(4).toString('hex').toUpperCase()` as a function of
the four random bytes drawn from the byte source. -/
def uniqueCodeOf (bytes : List Nat) : String :=
  ⟨(bytes.flatMap byteToHex).map Char.toUpper⟩

/-- The sixteen uppercase hexadecimal digits. -/
def hexUpperChars : List Char :=
  ['0', '1', '2', '3', '4', '5', '6', '7', '8', '9', 'A', 'B', 'C', 'D', 'E', 'F']

theorem byteToHex_length (b : Nat) : (byteToHex b).length = 2 := rfl

theorem flatMap_byteToHex_length (bs : List Nat) :
    (bs.flatMap byteToHex).length = 2 * bs.length := by
  induction bs with
  | nil => rfl
  | cons b rest ih =>
    simp [List.length_append, ih, byteToHex, Nat.mul_succ, Nat.add_comm]
    omega

theorem hexDigit_toUpper_mem (n : Nat) (h : n < 16) :
    Char.toUpper (hexDigit n) ∈ hexUpperChars := by
  interval_cases n <;> decide

/-! ## Data model: the Record Store's tables -/

/-- A row of the `devices` table.  `device_id` is store-assigned;
`status` defaults to `"pending"` at the store level. -/
structure DeviceRow where
  device_id : Nat
  owner_id : String
  device_name : String
  unique_code : String
  status : String
  deriving Repr, DecidableEq

/-- A row of the `content` table; `file_url` / `content_type` come from the
request body and may be absent (inserted as null). -/
structure ContentRow where
  content_id : Nat
  owner_id : String
  file_url : Option String
  content_type : Option String
  deriving Repr, DecidableEq

/-- A row of the `users` table. -/
structure UserRow where
  id : String
  full_name : String
  avatar_url : String
  deriving Repr, DecidableEq

/-- A row of the `playlists` table; all fields are taken verbatim from the
request body and may be absent. -/
structure PlaylistRow where
  playlist_id : Nat
  device_id : Option Nat
  content_id : Option Nat
  start_time : Option String
  end_time : Option String
  order : Option Nat
  deriving Repr, DecidableEq

/-- The Record Store's state: the four tables the server touches. -/
structure SystemState where
  devices : List DeviceRow
  content : List ContentRow
  users : List UserRow
  playlists : List PlaylistRow
  deriving Repr, DecidableEq

/-! ## Directory Service values -/

/-- The `user_metadata` object of a Directory Service user. -/
structure UserMetadata where
  full_name : Option String
  avatar_url : Option String
  deriving Repr, DecidableEq

/-- An authenticated Directory Service user, as resolved by
`supabase.auth.getUser`. -/
structure AuthUser where
  id : String
  user_metadata : UserMetadata
  deriving Repr, DecidableEq

/-- Result shape of `supabase.auth.getUser(token)`: a possibly-null user and
a possibly-null error. -/
structure GetUserResult where
  user : Option AuthUser
  error : Option String
  deriving Repr, DecidableEq

/-! ## Session Guard (`requireAuth`) -/

/-- Outcome of the `requireAuth` middleware: either a redirect (the
downstream handler is never invoked) or the request proceeds with the
resolved user bound to the request context (`req.user`). -/
inductive GuardResult where
  | redirect (location : String)
  | proceed (user : AuthUser)
  deriving Repr, DecidableEq

/-- The `requireAuth` middleware: read the `auth-token` cookie; the JS
check `if (!token)` is falsy on both an absent cookie and a present-but-empty
one, and redirects to `/login` without calling the Directory Service;
otherwise validate the token; a validation error or a null user → redirect
to `/login`; otherwise bind the user and continue. -/
def requireAuth (cookies : String → Option String)
    (getUser : String → GetUserResult) : GuardResult :=
  match cookies "auth-token" with
  | none => .redirect "/login"
  | some token =>
    if token = "" then .redirect "/login"
    else
      let r := getUser token
      if r.error.isSome then .redirect "/login"
      else
        match r.user with
        | none => .redirect "/login"
        | some u => .proceed u

/-! ## Generic store helpers -/

/-- Generic JSON API response: HTTP status, `data[0]` when the handler sends
a row, and the error message when it sends an error object. -/
structure ApiOut (α : Type) where
  status : Nat
  body : Option α
  error : Option String
  deriving Repr, DecidableEq

/-- PostgREST `.single()`: exactly one row, else null. -/
def singleRow {α : Type} (rows : List α) : Option α :=
  match rows with
  | [r] => some r
  | _ => none

/-- The insert payload built by the generate-code handler.  It deliberately
has no `status` field: `status` is left to the store's column default. -/
structure DeviceInsertPayload where
  owner_id : String
  unique_code : String
  device_name : String
  deriving Repr, DecidableEq

/-- Store-side insert into `devices`: assigns the next id and applies the
column default `status = "pending"`, returning the created row. -/
def devicesInsert (db : List DeviceRow) (p : DeviceInsertPayload) (newId : Nat) :
    List DeviceRow × DeviceRow :=
  let row : DeviceRow :=
    { device_id := newId, owner_id := p.owner_id, device_name := p.device_name,
      unique_code := p.unique_code, status := "pending" }
  (db ++ [row], row)

/-! ## Routes -/

/-- Route `POST /api/generate-code`: generate the code from four random bytes,
insert a device row owned by the caller (name defaulted by JS `||`), and
answer 201 with the created row, or 500 with the store's error message. -/
def postGenerateCode (user : AuthUser) (device_name : Option String)
    (bytes : List Nat) (newId : Nat) (s : SystemState)
    (storeError : Option String) : SystemState × ApiOut DeviceRow :=
  let unique_code := uniqueCodeOf bytes
  let payload : DeviceInsertPayload :=
    { owner_id := user.id, unique_code := unique_code,
      device_name := jsOrOpt device_name "New Device" }
  match storeError with
  | some msg => (s, ⟨500, none, some msg⟩)
  | none =>
    let (db, row) := devicesInsert s.devices payload newId
    ({ s with devices := db }, ⟨201, some row, none⟩)

/-- Route `POST /api/confirm-device`: `update(status = active).eq(device_id).select()`.
PostgREST semantics: every matching row is updated and the updated rows are
returned; matching no row succeeds with an empty list (it is not an error).
The handler answers 200 with `data[0]`, or 500 with the store's message. -/
def postConfirmDevice (device_id : Nat) (s : SystemState)
    (storeError : Option String) : SystemState × ApiOut DeviceRow :=
  match storeError with
  | some msg => (s, ⟨500, none, some msg⟩)
  | none =>
    let updated := s.devices.map fun r =>
      if r.device_id == device_id then { r with status := "active" } else r
    let rows := (s.devices.filter fun r => r.device_id == device_id).map
      fun r => { r with status := "active" }
    ({ s with devices := updated }, ⟨200, rows.head?, none⟩)

/-- Route `POST /api/content`: insert a content row owned by the caller, body
fields verbatim; 201 with the created row, or 500 with the store's message. -/
def postApiContent (user : AuthUser) (file_url content_type : Option String)
    (newId : Nat) (s : SystemState) (storeError : Option String) :
    SystemState × ApiOut ContentRow :=
  match storeError with
  | some msg => (s, ⟨500, none, some msg⟩)
  | none =>
    let row : ContentRow :=
      { content_id := newId, owner_id := user.id,
        file_url := file_url, content_type := content_type }
    ({ s with content := s.content ++ [row] }, ⟨201, some row, none⟩)

/-- Route `POST /api/playlist`: insert a playlist row with all body fields taken
verbatim (no ownership scoping); 201 or 500. -/
def postApiPlaylist (device_id content_id : Option Nat)
    (start_time end_time : Option String) (order : Option Nat) (newId : Nat)
    (s : SystemState) (storeError : Option String) :
    SystemState × ApiOut PlaylistRow :=
  match storeError with
  | some msg => (s, ⟨500, none, some msg⟩)
  | none =>
    let row : PlaylistRow :=
      { playlist_id := newId, device_id := device_id, content_id := content_id,
        start_time := start_time, end_time := end_time, order := order }
    ({ s with playlists := s.playlists ++ [row] }, ⟨201, some row, none⟩)

/-- Route `GET /api/user/profile`: select the caller's users row with `.single()`;
200 with the row, 500 with the store's message on failure (a `.single()`
miss surfaces as a store error with PostgREST's message). -/
def getUserProfile (user : AuthUser) (s : SystemState)
    (storeError : Option String) : ApiOut UserRow :=
  match storeError with
  | some msg => ⟨500, none, some msg⟩
  | none =>
    match singleRow (s.users.filter fun u => u.id == user.id) with
    | some row => ⟨200, some row, none⟩
    | none => ⟨500, none, some "JSON object requested, multiple (or no) rows returned"⟩

/-- Route `PUT /api/user/profile`: update the caller's users row, each field
falling back (JS `||`) to the token's `user_metadata` value and then to
`""`.  A primary-store failure answers 500; a failure of the secondary
Directory Service metadata update (`authError`) is logged and swallowed,
and the handler still answers 200 with the updated row. -/
def putUserProfile (user : AuthUser) (full_name avatar_url : Option String)
    (s : SystemState) (userError authError : Option String) :
    SystemState × ApiOut UserRow :=
  let newFullName := jsOrOpt full_name (jsOrOpt user.user_metadata.full_name "")
  let newAvatarUrl := jsOrOpt avatar_url (jsOrOpt user.user_metadata.avatar_url "")
  match userError with
  | some msg => (s, ⟨500, none, some msg⟩)
  | none =>
    let upd : UserRow → UserRow := fun u =>
      if u.id == user.id then
        { u with full_name := newFullName, avatar_url := newAvatarUrl }
      else u
    let updated := s.users.map upd
    let rows := (s.users.filter fun u => u.id == user.id).map fun u =>
      { u with full_name := newFullName, avatar_url := newAvatarUrl }
    ({ s with users := updated }, ⟨200, rows.head?, none⟩)

/-- Outcome of the dashboard page route. -/
inductive DashboardOut where
  | errorPage (status : Nat) (text : String)
  | render (user : AuthUser) (devices : List DeviceRow)
  deriving Repr, DecidableEq

/-- Route `GET /dashboard`: select the caller's devices; a store failure answers
500 with a fixed text, otherwise render the page with the rows. -/
def getDashboard (user : AuthUser) (s : SystemState)
    (storeError : Option String) : DashboardOut :=
  match storeError with
  | some _ => .errorPage 500 "Error fetching devices"
  | none => .render user (s.devices.filter fun r => r.owner_id == user.id)

/-- Outcome of the content page route: it always renders (the handler never
checks the store error), with null data falling back to the empty list. -/
inductive ContentPageOut where
  | render (content : List ContentRow)
  deriving Repr, DecidableEq

/-- Route `GET /content`: select the caller's content rows and render.  The store
error is ignored: on failure the page renders with the empty list. -/
def getContentPage (user : AuthUser) (s : SystemState)
    (storeError : Option String) : ContentPageOut :=
  match storeError with
  | some _ => .render []
  | none => .render (s.content.filter fun c => c.owner_id == user.id)

/-- Rendered data of the playlist page: the device fetched with `.single()`
(`none` models the `device || ` empty-object fallback) and the caller's
content rows. -/
structure PlaylistPageOut where
  device : Option DeviceRow
  content : List ContentRow
  deriving Repr, DecidableEq

/-- Route `GET /playlist/:deviceId`: fetch the device by `device_id` alone (no
owner filter) with `.single()`, fetch the caller's content, and render;
both store errors are ignored, with null data falling back to defaults. -/
def getPlaylistPage (user : AuthUser) (deviceId : Nat) (s : SystemState)
    (deviceError contentError : Option String) : PlaylistPageOut :=
  let device := match deviceError with
    | some _ => none
    | none => singleRow (s.devices.filter fun r => r.device_id == deviceId)
  let content := match contentError with
    | some _ => []
    | none => s.content.filter fun c => c.owner_id == user.id
  ⟨device, content⟩

/-- A cookie set by `res.cookie`. -/
structure SetCookie where
  name : String
  value : String
  httpOnly : Bool
  secure : Bool
  maxAge : Nat
  deriving Repr, DecidableEq

/-- Outcome of `POST /login`: a 400 error with the provider's message and
no cookie, or a 200 success that sets the session cookie. -/
inductive LoginOut where
  | err (status : Nat) (msg : String)
  | ok (status : Nat) (cookie : SetCookie) (message : String)
  deriving Repr, DecidableEq

/-- Route `POST /login`: `signInWithPassword` either fails (400 with the
provider's message, no cookie) or yields a session whose access token is
stored verbatim in the `auth-token` cookie (httpOnly, not secure, one-hour
max age), answering 200. -/
def postLogin (signIn : Except String String) : LoginOut :=
  match signIn with
  | .error m => .err 400 m
  | .ok accessToken =>
    .ok 200 ⟨"auth-token", accessToken, true, false, 3600000⟩ "Login successful"

/-- Outcome of `POST /signup`. -/
inductive SignupOut where
  | err (status : Nat) (msg : String)
  | ok (status : Nat) (message : String)
  deriving Repr, DecidableEq

/-- Route `POST /signup`: `signUp` with the metadata defaulted by JS `||`;
a provider failure answers 400 with its message, success answers 200. -/
def postSignup (signUpResult : Option String) : SignupOut :=
  match signUpResult with
  | some m => .err 400 m
  | none => .ok 200 "Signup successful, please login."

/-! ## System steps (the store-mutating operations) -/

/-- One store-mutating operation of the system, with its injected store
failure(s).  Reads (pages, profile get) do not mutate the store. -/
inductive Op where
  | generate (user : AuthUser) (device_name : Option String)
      (bytes : List Nat) (newId : Nat) (err : Option String)
  | confirm (device_id : Nat) (err : Option String)
  | createContent (user : AuthUser) (file_url content_type : Option String)
      (newId : Nat) (err : Option String)
  | createPlaylist (device_id content_id : Option Nat)
      (start_time end_time : Option String) (order : Option Nat)
      (newId : Nat) (err : Option String)
  | updateProfile (user : AuthUser) (full_name avatar_url : Option String)
      (userErr authErr : Option String)

/-- The store-state effect of each operation, as implemented by the routes. -/
def step (op : Op) (s : SystemState) : SystemState :=
  match op with
  | .generate u n bs id e => (postGenerateCode u n bs id s e).1
  | .confirm id e => (postConfirmDevice id s e).1
  | .createContent u f c id e => (postApiContent u f c id s e).1
  | .createPlaylist d c st en o id e => (postApiPlaylist d c st en o id s e).1
  | .updateProfile u f a ue ae => (putUserProfile u f a s ue ae).1

/-- How each operation rewrites an existing `devices` row: only a
successful `confirm` touches existing rows, and it only writes `active`. -/
def deviceUpdOf (op : Op) : DeviceRow → DeviceRow :=
  match op with
  | .confirm id none => fun r =>
      if r.device_id == id then { r with status := "active" } else r
  | _ => fun r => r

/-- The `devices` rows freshly created by an operation: only a successful
`generate` inserts, and the created row is `pending`. -/
def newDevicesOf (op : Op) : List DeviceRow :=
  match op with
  | .generate u n bs id none =>
      [(devicesInsert [] ⟨u.id, uniqueCodeOf bs, jsOrOpt n "New Device"⟩ id).2]
  | _ => []


/-! ## Helper lemmas -/

theorem singleRow_eq_some {α : Type} {l : List α} {r : α}
    (h : singleRow l = some r) : l = [r] := by
  match l with
  | [] => simp [singleRow] at h
  | [x] => simp [singleRow] at h; simp [h]
  | x :: y :: t => simp [singleRow] at h

/-! ## Claims -/

/-- C1: for every request to a session-protected route, an absent
`auth-token` cookie, a present-but-empty one (JS-falsy, denied without
invoking validation — the redirect holds for every `getUser`), a
token-validation error, and a resolved null user all yield the same
redirect to `/login` (the downstream handler is not invoked); a successful
validation of the present non-empty token binds the resolved user and lets
the downstream handler proceed with that identity. -/
theorem sessionGuard_denies_or_binds (cookies : String → Option String)
    (getUser : String → GetUserResult) :
    (cookies "auth-token" = none →
      requireAuth cookies getUser = .redirect "/login") ∧
    (cookies "auth-token" = some "" →
      requireAuth cookies getUser = .redirect "/login") ∧
    (∀ t, cookies "auth-token" = some t →
      (getUser t).error ≠ none ∨ (getUser t).user = none →
      requireAuth cookies getUser = .redirect "/login") ∧
    (∀ t u, cookies "auth-token" = some t → t ≠ "" →
      (getUser t).error = none → (getUser t).user = some u →
      requireAuth cookies getUser = .proceed u) := by
  refine ⟨?_, ?_, ?_, ?_⟩
  · intro h
    simp [requireAuth, h]
  · intro h
    simp [requireAuth, h]
  · intro t ht h
    by_cases hte : t = ""
    · subst hte
      simp [requireAuth, ht]
    · rcases h with h | h
      · simp [requireAuth, ht, hte, Option.isSome_iff_ne_none, h]
      · cases he : (getUser t).error with
        | some e => simp [requireAuth, ht, hte, he]
        | none => simp [requireAuth, ht, hte, he, h]
  · intro t u ht hte he hu
    simp [requireAuth, ht, hte, he, hu]

def exC1User : AuthUser := ⟨"user-1", ⟨none, none⟩⟩

def exC1Cookies : String → Option String :=
  fun n => if n = "auth-token" then some "tok123" else none

def exC1GetUser : String → GetUserResult := fun _ => ⟨some exC1User, none⟩

/-- Witness for C1: a concrete valid session proceeds with its identity. -/
theorem sessionGuard_denies_or_binds_witness :
    requireAuth exC1Cookies exC1GetUser = GuardResult.proceed exC1User :=
  (sessionGuard_denies_or_binds exC1Cookies exC1GetUser).2.2.2 "tok123"
    exC1User (by decide) (by decide) rfl rfl

/-- C3: the pairing code derived from the four random bytes is exactly
eight characters, each an uppercase hexadecimal digit, and the code the
generate route stores is a function of those bytes alone (independent of
the request body and the rest of the state). -/
theorem generate_code_hex8 (bytes : List Nat) (hlen : bytes.length = 4)
    (hbyte : ∀ b ∈ bytes, b < 256) :
    (uniqueCodeOf bytes).length = 8 ∧
    (∀ c ∈ (uniqueCodeOf bytes).data, c ∈ hexUpperChars) ∧
    (∀ (user : AuthUser) (device_name : Option String) (newId : Nat)
      (s : SystemState),
      ((postGenerateCode user device_name bytes newId s none).2.body.map
        DeviceRow.unique_code) = some (uniqueCodeOf bytes)) := by
  refine ⟨?_, ?_, ?_⟩
  · show ((bytes.flatMap byteToHex).map Char.toUpper).length = 8
    rw [List.length_map, flatMap_byteToHex_length, hlen]
  · intro c hc
    have hc' : c ∈ (bytes.flatMap byteToHex).map Char.toUpper := hc
    rw [List.mem_map] at hc'
    obtain ⟨c0, hc0, rfl⟩ := hc'
    rw [List.mem_flatMap] at hc0
    obtain ⟨b, hb, hcb⟩ := hc0
    have hb256 : b < 256 := hbyte b hb
    have hdiv : b / 16 < 16 := Nat.div_lt_of_lt_mul (by omega)
    have hmod : b % 16 < 16 := Nat.mod_lt _ (by norm_num)
    simp only [byteToHex, List.mem_cons, List.mem_singleton] at hcb
    rcases hcb with rfl | rfl | h
    · exact hexDigit_toUpper_mem _ hdiv
    · exact hexDigit_toUpper_mem _ hmod
    · exact absurd h (List.not_mem_nil c0)
  · intro user device_name newId s
    simp [postGenerateCode, devicesInsert]

/-- Witness for C3: a concrete four-byte draw yields an 8-character code. -/
theorem generate_code_hex8_witness :
    (uniqueCodeOf [0, 255, 18, 171]).length = 8 :=
  (generate_code_hex8 [0, 255, 18, 171] rfl (by decide)).1

/-- C9: a successful login sets the `auth-token` cookie — HTTP-only, not
secure-flagged, one-hour (3600000 ms) max age, carrying the provider's
access token verbatim — and answers 200; a failed login answers 400 with
the provider's error message and sets no cookie. -/
theorem login_sets_cookie (signIn : Except String String) :
    (∀ m, signIn = .error m → postLogin signIn = .err 400 m) ∧
    (∀ t, signIn = .ok t →
      postLogin signIn =
        .ok 200 ⟨"auth-token", t, true, false, 3600000⟩ "Login successful") := by
  constructor
  · intro m h
    subst h
    rfl
  · intro t h
    subst h
    rfl

/-- Witness for C9: a concrete successful login sets the session cookie. -/
theorem login_sets_cookie_witness :
    postLogin (.ok "tok-abc") =
      LoginOut.ok 200 ⟨"auth-token", "tok-abc", true, false, 3600000⟩
        "Login successful" :=
  (login_sets_cookie (.ok "tok-abc")).2 "tok-abc" rfl

def exC2State : SystemState :=
  ⟨[⟨1, "owner-a", "Lobby TV", "ABCD1234", "pending"⟩], [], [], []⟩

/-- Counterexample to C2: confirming a device id that matches no stored row
does not fail — absent a store failure the route answers 200 with no error
(and an empty body), while leaving the store unchanged. -/
theorem confirm_unknown_succeeds_cex :
    (postConfirmDevice 99 exC2State none).2.status = 200 ∧
    (postConfirmDevice 99 exC2State none).2.error = none ∧
    (postConfirmDevice 99 exC2State none).1 = exC2State := by decide

/-- C2 (amended): confirming an unknown device id mutates no row; absent a
store failure it succeeds with status 200 and an empty body (no
`NotFound` is signalled), and a store failure answers 500 with the store's
message, again without mutation. -/
theorem confirm_unknown_no_mutation (device_id : Nat) (s : SystemState)
    (h : ∀ r ∈ s.devices, r.device_id ≠ device_id) :
    postConfirmDevice device_id s none = (s, ⟨200, none, none⟩) ∧
    (∀ msg, postConfirmDevice device_id s (some msg) =
      (s, ⟨500, none, some msg⟩)) := by
  constructor
  · have hmap : (s.devices.map fun r =>
        if r.device_id == device_id then { r with status := "active" } else r)
        = s.devices := by
      conv_rhs => rw [← List.map_id s.devices]
      exact List.map_congr_left fun r hr => by simp [h r hr]
    have hfil : (s.devices.filter fun r => r.device_id == device_id) = [] := by
      rw [List.filter_eq_nil_iff]
      intro r hr
      simp [h r hr]
    simp only [postConfirmDevice]
    rw [hmap, hfil]
    rfl
  · intro msg
    rfl

def exC2WState : SystemState :=
  ⟨[⟨2, "owner-b", "Hall TV", "00FF00FF", "pending"⟩], [], [], []⟩

/-- Witness for the amended C2 at a concrete unknown id. -/
theorem confirm_unknown_no_mutation_witness :
    postConfirmDevice 77 exC2WState none = (exC2WState, ⟨200, none, none⟩) :=
  (confirm_unknown_no_mutation 77 exC2WState (by decide)).1

def exC4User : AuthUser := ⟨"owner-a", ⟨none, none⟩⟩

def exC4State : SystemState := ⟨[], [], [], []⟩

/-- Counterexample to C4: a present-but-empty `device_name` in the body is
falsy in JS, so the stored name is `"New Device"`, not the provided name. -/
theorem generate_empty_name_cex :
    ((postGenerateCode exC4User (some "") [0, 255, 18, 171] 1 exC4State
        none).2.body.map DeviceRow.device_name) = some "New Device" ∧
    ("" : String) ≠ "New Device" := by decide

/-- C4 (amended): an authenticated generate request inserts exactly one
device row — owner the caller, code the generated one, name the provided
name when present and non-empty and `"New Device"` otherwise, status the
store default `"pending"` (the insert payload carries no status field) —
answering 201 with the created row; a store failure answers 500 with the
store's message and inserts nothing. -/
theorem generate_persists_row (user : AuthUser) (device_name : Option String)
    (bytes : List Nat) (newId : Nat) (s : SystemState) :
    postGenerateCode user device_name bytes newId s none =
      ({ s with devices := s.devices ++
          [⟨newId, user.id, jsOrOpt device_name "New Device",
            uniqueCodeOf bytes, "pending"⟩] },
        ⟨201, some ⟨newId, user.id, jsOrOpt device_name "New Device",
          uniqueCodeOf bytes, "pending"⟩, none⟩) ∧
    (∀ msg, postGenerateCode user device_name bytes newId s (some msg) =
      (s, ⟨500, none, some msg⟩)) := by
  constructor
  · rfl
  · intro msg
    rfl

/-- Witness for the amended C4 at concrete inputs. -/
theorem generate_persists_row_witness :
    (postGenerateCode exC4User (some "Lobby TV") [0, 255, 18, 171] 1 exC4State
        none).2.status = 201 := by
  rw [(generate_persists_row exC4User (some "Lobby TV") [0, 255, 18, 171] 1
    exC4State).1]

/-- C5: device status never reverts — every operation of the system either
leaves an existing devices row unchanged or sets its status to `"active"`
(a successful confirm), every freshly inserted devices row has status
`"pending"`, and no operation ever writes `"pending"` onto an existing
row; in particular an `"active"` row stays `"active"` across every step. -/
theorem device_status_monotone (op : Op) (s : SystemState) :
    (step op s).devices = s.devices.map (deviceUpdOf op) ++ newDevicesOf op ∧
    (∀ r, deviceUpdOf op r = r ∨
      deviceUpdOf op r = { r with status := "active" }) ∧
    (∀ r ∈ newDevicesOf op, r.status = "pending") ∧
    (∀ r, r.status = "active" → (deviceUpdOf op r).status = "active") := by
  cases op with
  | generate u n bs id e =>
    cases e with
    | none =>
      refine ⟨?_, fun r => Or.inl rfl, ?_, fun r hr => hr⟩
      · simp [step, postGenerateCode, devicesInsert, deviceUpdOf, newDevicesOf]
      · intro r hr
        simp [newDevicesOf, devicesInsert] at hr
        simp [hr]
    | some m =>
      exact ⟨by simp [step, postGenerateCode, deviceUpdOf, newDevicesOf],
        fun r => Or.inl rfl, by simp [newDevicesOf], fun r hr => hr⟩
  | confirm id e =>
    cases e with
    | none =>
      refine ⟨by simp [step, postConfirmDevice, deviceUpdOf, newDevicesOf], ?_,
        by simp [newDevicesOf], ?_⟩
      · intro r
        by_cases hq : (r.device_id == id) = true
        · exact Or.inr (by simp [deviceUpdOf, hq])
        · exact Or.inl (by simp [deviceUpdOf, hq])
      · intro r hr
        by_cases hq : (r.device_id == id) = true
        · simp [deviceUpdOf, hq]
        · simp [deviceUpdOf, hq, hr]
    | some m =>
      exact ⟨by simp [step, postConfirmDevice, deviceUpdOf, newDevicesOf],
        fun r => Or.inl rfl, by simp [newDevicesOf], fun r hr => hr⟩
  | createContent u f c id e =>
    cases e with
    | none =>
      exact ⟨by simp [step, postApiContent, deviceUpdOf, newDevicesOf],
        fun r => Or.inl rfl, by simp [newDevicesOf], fun r hr => hr⟩
    | some m =>
      exact ⟨by simp [step, postApiContent, deviceUpdOf, newDevicesOf],
        fun r => Or.inl rfl, by simp [newDevicesOf], fun r hr => hr⟩
  | createPlaylist d c st en o id e =>
    cases e with
    | none =>
      exact ⟨by simp [step, postApiPlaylist, deviceUpdOf, newDevicesOf],
        fun r => Or.inl rfl, by simp [newDevicesOf], fun r hr => hr⟩
    | some m =>
      exact ⟨by simp [step, postApiPlaylist, deviceUpdOf, newDevicesOf],
        fun r => Or.inl rfl, by simp [newDevicesOf], fun r hr => hr⟩
  | updateProfile u f a ue ae =>
    cases ue with
    | none =>
      exact ⟨by simp [step, putUserProfile, deviceUpdOf, newDevicesOf],
        fun r => Or.inl rfl, by simp [newDevicesOf], fun r hr => hr⟩
    | some m =>
      exact ⟨by simp [step, putUserProfile, deviceUpdOf, newDevicesOf],
        fun r => Or.inl rfl, by simp [newDevicesOf], fun r hr => hr⟩

def exC5Row : DeviceRow := ⟨3, "owner-a", "TV", "00FF12AB", "active"⟩

/-- Witness for C5: a successful confirm keeps a concrete active row active. -/
theorem device_status_monotone_witness :
    (deviceUpdOf (Op.confirm 3 none) exC5Row).status = "active" :=
  (device_status_monotone (Op.confirm 3 none) ⟨[], [], [], []⟩).2.2.2 exC5Row rfl

/-- The data a rendered content page carries. -/
def ContentPageOut.contentData : ContentPageOut → List ContentRow
  | .render c => c

def exC6User : AuthUser := ⟨"alice", ⟨none, none⟩⟩

def exC6Device : DeviceRow := ⟨7, "bob", "Lobby TV", "AA11BB22", "pending"⟩

def exC6State : SystemState := ⟨[exC6Device], [], [], []⟩

/-- Counterexample to C6: the playlist page returns the device row matching
the requested `device_id` even though its `owner_id` differs from the
authenticated caller's identity. -/
theorem playlistPage_cross_owner_cex :
    (getPlaylistPage exC6User 7 exC6State none none).device = some exC6Device ∧
    exC6Device.owner_id ≠ exC6User.id := by decide

/-- C6 (amended): the dashboard, content page, playlist-page content list
and profile read are all scoped by the caller's identifier, but the device
row fetched by the playlist page is selected by `device_id` alone — it is
independent of the caller's identity and only constrained to match the
requested id, not to be owned by the caller. -/
theorem read_scoping (user : AuthUser) (s : SystemState) :
    (∀ (e : Option String) (u' : AuthUser) (rows : List DeviceRow),
      getDashboard user s e = .render u' rows →
      ∀ r ∈ rows, r.owner_id = user.id) ∧
    (∀ e : Option String, ∀ c ∈ (getContentPage user s e).contentData,
      c.owner_id = user.id) ∧
    (∀ (deviceId : Nat) (e1 e2 : Option String),
      ∀ c ∈ (getPlaylistPage user deviceId s e1 e2).content,
      c.owner_id = user.id) ∧
    (∀ r, (getUserProfile user s none).body = some r → r.id = user.id) ∧
    (∀ (u' : AuthUser) (deviceId : Nat) (e1 e2 : Option String),
      (getPlaylistPage user deviceId s e1 e2).device =
        (getPlaylistPage u' deviceId s e1 e2).device) ∧
    (∀ (deviceId : Nat) (e2 : Option String) (r : DeviceRow),
      (getPlaylistPage user deviceId s none e2).device = some r →
      r.device_id = deviceId) := by
  refine ⟨?_, ?_, ?_, ?_, ?_, ?_⟩
  · intro e u' rows hout r hr
    cases e with
    | some m => simp [getDashboard] at hout
    | none =>
      simp only [getDashboard, DashboardOut.render.injEq] at hout
      rw [← hout.2] at hr
      simp [List.mem_filter] at hr
      exact hr.2
  · intro e c hc
    cases e with
    | some m => simp [getContentPage, ContentPageOut.contentData] at hc
    | none =>
      simp [getContentPage, ContentPageOut.contentData, List.mem_filter] at hc
      exact hc.2
  · intro deviceId e1 e2 c hc
    cases e2 with
    | some m => simp [getPlaylistPage] at hc
    | none =>
      simp [getPlaylistPage, List.mem_filter] at hc
      exact hc.2
  · intro r hout
    cases hs : singleRow (s.users.filter fun u => u.id == user.id) with
    | none => simp [getUserProfile, hs] at hout
    | some row =>
      simp [getUserProfile, hs] at hout
      have hl := singleRow_eq_some hs
      have : row ∈ s.users.filter fun u => u.id == user.id := by
        rw [hl]
        exact List.mem_singleton.mpr rfl
      simp [List.mem_filter] at this
      rw [← hout]
      exact this.2
  · intro u' deviceId e1 e2
    rfl
  · intro deviceId e2 r hout
    have hs : singleRow (s.devices.filter fun d => d.device_id == deviceId)
        = some r := hout
    have hl := singleRow_eq_some hs
    have : r ∈ s.devices.filter fun d => d.device_id == deviceId := by
      rw [hl]
      exact List.mem_singleton.mpr rfl
    simp [List.mem_filter] at this
    exact this.2

def exC6WUser : AuthUser := ⟨"carol", ⟨none, none⟩⟩

def exC6WDevice : DeviceRow := ⟨1, "carol", "TV", "C0DEC0DE", "pending"⟩

def exC6WState : SystemState := ⟨[exC6WDevice], [], [], []⟩

/-- Witness for the amended C6: a concrete dashboard row is caller-owned. -/
theorem read_scoping_witness :
    exC6WDevice.owner_id = exC6WUser.id :=
  (read_scoping exC6WUser exC6WState).1 none exC6WUser [exC6WDevice]
    (by decide) exC6WDevice (by decide)

def exC7User : AuthUser := ⟨"alice", ⟨none, none⟩⟩

def exC7State : SystemState :=
  ⟨[], [⟨1, "alice", some "http://x/y.mp4", some "video"⟩], [], []⟩

/-- Counterexample to C7: with a failing store, the content page route does
not surface any error — it renders normally with an empty list. -/
theorem contentPage_swallows_error_cex :
    getContentPage exC7User exC7State (some "db down") =
      ContentPageOut.render [] := rfl

/-- C7 (amended): every Directory Service or Record Store failure is
surfaced immediately to the caller as an error response, except that (a)
the secondary auth-metadata update inside profile update is logged and
swallowed (the request still answers 200), and (b) the content and
playlist page routes ignore store failures and render with empty/default
data instead of answering with an error. -/
theorem external_failures_surfaced (msg : String) (user : AuthUser)
    (s : SystemState) (device_name : Option String) (bytes : List Nat)
    (newId deviceId : Nat) (file_url content_type : Option String)
    (pd pc : Option Nat) (st en : Option String) (ord : Option Nat)
    (full_name avatar_url : Option String) (e2 : Option String) :
    getDashboard user s (some msg) =
      .errorPage 500 "Error fetching devices" ∧
    postGenerateCode user device_name bytes newId s (some msg) =
      (s, ⟨500, none, some msg⟩) ∧
    postConfirmDevice deviceId s (some msg) = (s, ⟨500, none, some msg⟩) ∧
    postApiContent user file_url content_type newId s (some msg) =
      (s, ⟨500, none, some msg⟩) ∧
    postApiPlaylist pd pc st en ord newId s (some msg) =
      (s, ⟨500, none, some msg⟩) ∧
    getUserProfile user s (some msg) = ⟨500, none, some msg⟩ ∧
    putUserProfile user full_name avatar_url s (some msg) e2 =
      (s, ⟨500, none, some msg⟩) ∧
    postLogin (.error msg) = .err 400 msg ∧
    postSignup (some msg) = .err 400 msg ∧
    (putUserProfile user full_name avatar_url s none (some msg)).2.status
      = 200 ∧
    getContentPage user s (some msg) = .render [] ∧
    (getPlaylistPage user deviceId s (some msg) e2).device = none ∧
    (getPlaylistPage user deviceId s e2 (some msg)).content = [] :=
  ⟨rfl, rfl, rfl, rfl, rfl, rfl, rfl, rfl, rfl, rfl, rfl, rfl, rfl⟩

def exC8User : AuthUser := ⟨"u1", ⟨some "Bob", some "oldpic"⟩⟩

def exC8State : SystemState := ⟨[], [], [⟨"u1", "Alice", "oldpic"⟩], []⟩

/-- Counterexample to C8: the body supplies only `avatar_url`; the
users-table row held `full_name = "Alice"`, but after the update it holds
the token metadata's `"Bob"` — the fallback reads the auth metadata, not
the existing table value. -/
theorem profile_update_overwrites_fullName_cex :
    ((putUserProfile exC8User none (some "newpic") exC8State none
        none).1).users = [⟨"u1", "Bob", "newpic"⟩] ∧
    ("Bob" : String) ≠ "Alice" := by decide

/-- C8 (amended): when the body supplies `avatar_url` but not `full_name`,
the stored `full_name` is taken from the caller's auth-token
`user_metadata` (empty string when absent or empty) — not from the table —
so the pre-update table value is preserved exactly when the metadata
agrees with it (non-empty). -/
theorem profile_fullName_from_metadata (user : AuthUser)
    (avatar_url : Option String) (s : SystemState) (authErr : Option String) :
    ((putUserProfile user none avatar_url s none authErr).1).users
      = s.users.map (fun u =>
          if u.id == user.id then
            { u with
              full_name := jsOrOpt user.user_metadata.full_name "",
              avatar_url :=
                jsOrOpt avatar_url (jsOrOpt user.user_metadata.avatar_url "") }
          else u) ∧
    (∀ u ∈ s.users, u.id = user.id →
      user.user_metadata.full_name = some u.full_name → u.full_name ≠ "" →
      ∀ v ∈ ((putUserProfile user none avatar_url s none authErr).1).users,
        v.id = u.id → v.full_name = u.full_name) := by
  have hdef : ((putUserProfile user none avatar_url s none authErr).1).users
      = s.users.map (fun u =>
          if u.id == user.id then
            { u with
              full_name := jsOrOpt user.user_metadata.full_name "",
              avatar_url :=
                jsOrOpt avatar_url (jsOrOpt user.user_metadata.avatar_url "") }
          else u) := rfl
  refine ⟨hdef, ?_⟩
  intro u hu hid hmeta hne v hv hvid
  rw [hdef] at hv
  rw [List.mem_map] at hv
  obtain ⟨w, hw, rfl⟩ := hv
  by_cases hwid : (w.id == user.id) = true
  · simp only [hwid, if_pos]
    simp [hmeta, jsOrOpt, hne]
  · simp only [hwid] at hvid ⊢
    simp only [if_neg (by simp_all)] at hvid ⊢
    exact absurd (hvid.trans hid) (by simpa using hwid)

def exC8WUser : AuthUser := ⟨"u2", ⟨some "Dana", none⟩⟩

def exC8WState : SystemState := ⟨[], [], [⟨"u2", "Dana", "x"⟩], []⟩

/-- Witness for the amended C8: with table and metadata in sync, an
avatar-only update preserves the concrete `full_name`. -/
theorem profile_fullName_from_metadata_witness :
    (⟨"u2", "Dana", "pic2"⟩ : UserRow).full_name
      = (⟨"u2", "Dana", "x"⟩ : UserRow).full_name :=
  (profile_fullName_from_metadata exC8WUser (some "pic2") exC8WState none).2
    ⟨"u2", "Dana", "x"⟩ (by decide) rfl rfl (by decide)
    ⟨"u2", "Dana", "pic2"⟩ (by decide) rfl

theorem confirm_upd_idem (device_id : Nat) (l : List DeviceRow) :
    ((l.map fun r =>
        if r.device_id == device_id then { r with status := "active" } else r).map
      fun r =>
        if r.device_id == device_id then { r with status := "active" } else r)
      = l.map fun r =>
          if r.device_id == device_id then { r with status := "active" } else r := by
  induction l with
  | nil => rfl
  | cons r t ih =>
    by_cases hq : (r.device_id == device_id) = true
    · simp only [List.map_cons, if_pos hq] at ih ⊢
      rw [ih]
    · simp only [List.map_cons, if_neg hq] at ih ⊢
      rw [ih]

theorem confirm_filter_comm (device_id : Nat) (l : List DeviceRow) :
    ((l.map fun r =>
        if r.device_id == device_id then { r with status := "active" } else r).filter
      fun r => r.device_id == device_id)
      = (l.filter fun r => r.device_id == device_id).map
          fun r => { r with status := "active" } := by
  induction l with
  | nil => rfl
  | cons r t ih =>
    by_cases hq : (r.device_id == device_id) = true
    · simp only [List.map_cons, List.filter_cons, if_pos hq, hq]
      simp only [ih]
      simp [hq]
    · simp only [List.map_cons, List.filter_cons, if_neg hq, hq]
      simp only [ih]
      simp [hq]

theorem setActive_map_idem (l : List DeviceRow) :
    ((l.map fun r => { r with status := "active" }).map
      fun r => { r with status := "active" })
      = l.map fun r => { r with status := "active" } := by
  induction l with
  | nil => rfl
  | cons r t ih => simp only [List.map_cons, ih]

/-- C10: confirm is idempotent — when some row matches the device id, a
second confirm leaves the store exactly as after the first, returns the
same response, and both answer 200 carrying an `"active"` row. -/
theorem confirm_idempotent (device_id : Nat) (s : SystemState)
    (h : ∃ r ∈ s.devices, r.device_id = device_id) :
    (postConfirmDevice device_id (postConfirmDevice device_id s none).1 none).1
      = (postConfirmDevice device_id s none).1 ∧
    (postConfirmDevice device_id (postConfirmDevice device_id s none).1 none).2
      = (postConfirmDevice device_id s none).2 ∧
    (postConfirmDevice device_id s none).2.status = 200 ∧
    (∃ r, (postConfirmDevice device_id s none).2.body = some r ∧
      r.status = "active") := by
  refine ⟨?_, ?_, rfl, ?_⟩
  · simp only [postConfirmDevice]
    rw [confirm_upd_idem]
  · simp only [postConfirmDevice]
    rw [confirm_filter_comm, setActive_map_idem]
  · obtain ⟨r, hr, hid⟩ := h
    have hrf : r ∈ s.devices.filter fun d => d.device_id == device_id :=
      List.mem_filter.mpr ⟨hr, by simp [hid]⟩
    simp only [postConfirmDevice]
    cases hval : s.devices.filter fun d => d.device_id == device_id with
    | nil =>
      rw [hval] at hrf
      exact absurd hrf (List.not_mem_nil r)
    | cons a t =>
      exact ⟨{ a with status := "active" }, rfl, rfl⟩

def exC10State : SystemState :=
  ⟨[⟨5, "owner-a", "TV", "AB12CD34", "pending"⟩], [], [], []⟩

/-- Witness for C10: a concrete confirm answers 200. -/
theorem confirm_idempotent_witness :
    (postConfirmDevice 5 exC10State none).2.status = 200 :=
  (confirm_idempotent 5 exC10State
    ⟨⟨5, "owner-a", "TV", "AB12CD34", "pending"⟩,
      by simp [exC10State], rfl⟩).2.2.1
